import Mathlib

/-!
A shallow embedding of the Muse bridge DLL (`src/MuseWrapper/MuseWrapper.cpp`),
the C++ adapter between the interaxon `libmuse` SDK and a flat C ABI.

Modelling conventions:
* Buffer slots are C `double`s, but the bridge only copies SDK-provided values
  and writes the constants `0.0` and `1.0`; slots are therefore modelled as
  rationals (`Rat`), which makes every definition executable and decidable.
* The SDK (`interaxon::bridge`) is external to the repository.  A data packet
  is modelled by its observable getters; the SDK enum `MuseDataPacketType` is
  modelled as an inductive whose `(int)` cast `toTag` assigns distinct fixed
  ordinals (the SDK's concrete ordinals are not part of the repository; no
  theorem below depends on the particular values, only on the cast being a
  fixed function of the kind).
* The bridge's global mutable state (`g_manager`, `g_currentMuse`, the three
  callback pointers, the three listener instances) is a `BridgeState` record;
  callback pointers are modelled as `Option Nat` (the pointer value).
* Calls the bridge makes into the SDK are recorded as an `SdkCall` trace, so
  ordering claims ("disconnect before connect") are about the trace.
* The SDK's `disconnect()` returns `void`; per the repository's own error
  design the only observable failure is a thrown exception, which the C++
  `try`/`catch` blocks swallow.  Whether a given device's `disconnect()`
  throws is an environment behaviour, modelled by an `SdkEnv` oracle.  All
  other SDK calls are modelled as non-throwing (no claim concerns their
  failure).
-/

namespace MuseWrapper

/-- SDK accelerometer field selector (`interaxon::bridge::Accelerometer`). -/
inductive Accelerometer where
  | X
  | Y
  | Z
deriving DecidableEq, Repr

/-- SDK battery field selector (`interaxon::bridge::Battery`). -/
inductive Battery where
  | CHARGE_PERCENTAGE_REMAINING
  | MILLIVOLTS
  | TEMPERATURE_CELSIUS
deriving DecidableEq, Repr

/-- SDK EEG channel selector (`interaxon::bridge::Eeg`). -/
inductive Eeg where
  | EEG1
  | EEG2
  | EEG3
  | EEG4
  | AUX_LEFT
  | AUX_RIGHT
deriving DecidableEq, Repr

/-- SDK packet-kind enum (`interaxon::bridge::MuseDataPacketType`).  The
bridge's switch distinguishes `ACCELEROMETER`, `BATTERY`, `EEG` and a default
branch; `ARTIFACTS` names the tag used by the artifact handler; `other n`
stands for any further or future enum value, all of which land in the default
branch. -/
inductive MuseDataPacketType where
  | ACCELEROMETER
  | BATTERY
  | EEG
  | ARTIFACTS
  | other (n : Nat)
deriving DecidableEq, Repr

/-- The `(int)` cast of the native enum value.  Concrete ordinals are opaque
SDK data; the embedding fixes distinct values and no result depends on which
ones. -/
def MuseDataPacketType.toTag : MuseDataPacketType → Int
  | .ACCELEROMETER => 0
  | .BATTERY => 1
  | .EEG => 2
  | .ARTIFACTS => 3
  | .other n => 4 + (n : Int)

/-- A decoded SDK data packet (`MuseDataPacket`), modelled by its kind and its
value getters. -/
structure MuseDataPacket where
  packet_type : MuseDataPacketType
  get_accelerometer_value : Accelerometer → Rat
  get_battery_value : Battery → Rat
  get_eeg_channel_value : Eeg → Rat

/-- A decoded SDK artifact packet (`MuseArtifactPacket`). -/
structure MuseArtifactPacket where
  headband_on : Bool
  blink : Bool
  jaw_clench : Bool
deriving DecidableEq, Repr

/-- One invocation of the C# `DataReceivedCallback(int packetType, double*
data, int dataLength)`. -/
structure DataInvocation where
  packetType : Int
  data : List Rat
  dataLength : Nat
deriving DecidableEq, Repr

/-- The `dataBuffer` computed by `DataListenerImpl::receive_muse_data_packet`:
initialised to six zeroes, then the switch on `packet->packet_type()`
overwrites the leading slots (all six for EEG); the default branch leaves the
buffer all-zero. -/
def dataBufferFor (packet : MuseDataPacket) : List Rat :=
  match packet.packet_type with
  | .ACCELEROMETER =>
      [packet.get_accelerometer_value .X,
       packet.get_accelerometer_value .Y,
       packet.get_accelerometer_value .Z, 0, 0, 0]
  | .BATTERY =>
      [packet.get_battery_value .CHARGE_PERCENTAGE_REMAINING,
       packet.get_battery_value .MILLIVOLTS,
       packet.get_battery_value .TEMPERATURE_CELSIUS, 0, 0, 0]
  | .EEG =>
      [packet.get_eeg_channel_value .EEG1,
       packet.get_eeg_channel_value .EEG2,
       packet.get_eeg_channel_value .EEG3,
       packet.get_eeg_channel_value .EEG4,
       packet.get_eeg_channel_value .AUX_LEFT,
       packet.get_eeg_channel_value .AUX_RIGHT]
  | _ => [0, 0, 0, 0, 0, 0]

/-- `DataListenerImpl::receive_muse_data_packet`, as a function from the
current `g_dataReceivedCallback` slot and the packet to the callback
invocation it performs (`none` when the slot is unset: the adapter returns
before any marshaling). -/
def receive_muse_data_packet (g_dataReceivedCallback : Option Nat)
    (packet : MuseDataPacket) : Option DataInvocation :=
  match g_dataReceivedCallback with
  | none => none
  | some _ => some ⟨packet.packet_type.toTag, dataBufferFor packet, 6⟩

/-- `DataListenerImpl::receive_muse_artifact_packet`: three boolean flags
marshal to 1.0/0.0 in slots 0-2, tag `(int)MuseDataPacketType::ARTIFACTS`. -/
def receive_muse_artifact_packet (g_dataReceivedCallback : Option Nat)
    (packet : MuseArtifactPacket) : Option DataInvocation :=
  match g_dataReceivedCallback with
  | none => none
  | some _ =>
      some ⟨MuseDataPacketType.ARTIFACTS.toTag,
        [if packet.headband_on then 1 else 0,
         if packet.blink then 1 else 0,
         if packet.jaw_clench then 1 else 0, 0, 0, 0], 6⟩

/-- A discoverable device, as the bridge observes it through the SDK:
`get_name()` plus an opaque native identity (`id`) standing for the
`shared_ptr<Muse>` object identity. -/
structure Device where
  id : Nat
  name : String
deriving DecidableEq, Repr

/-- Environment oracle for the one SDK call whose failure the repository's
error design makes observable: whether `disconnect()` on a given device
throws. -/
structure SdkEnv where
  disconnectThrows : Nat → Bool

/-- The environment in which every `disconnect()` succeeds. -/
def okEnv : SdkEnv := ⟨fun _ => false⟩

/-- A call the bridge makes into the SDK, recorded in order. -/
inductive SdkCall where
  | disconnect (deviceId : Nat)
  | registerConnectionListener (deviceId : Nat)
  | registerDataListener (deviceId : Nat) (packetType : Int)
  | unregisterDataListener (deviceId : Nat) (packetType : Int)
  | runAsynchronously (deviceId : Nat)
  | startListening
  | stopListening
deriving DecidableEq, Repr

/-- Recognises a `register_data_listener` SDK call in a trace. -/
def SdkCall.isRegisterDataListener : SdkCall → Bool
  | .registerDataListener _ _ => true
  | _ => false

/-- The bridge's global mutable state: the file-scope globals of
`MuseWrapper.cpp`.  The manager handle carries the current device snapshot
that `get_muses()` returns; the three listener-instance globals are tracked
by presence (they are stateless objects). -/
structure BridgeState where
  g_manager : Option (List Device)
  g_museListChangedCallback : Option Nat
  g_connectionStateChangedCallback : Option Nat
  g_dataReceivedCallback : Option Nat
  g_currentMuse : Option Device
  g_listener : Bool
  g_connectionListener : Bool
  g_dataListener : Bool
deriving DecidableEq, Repr

/-- The state at process start: every global is null. -/
def initialState : BridgeState :=
  { g_manager := none
    g_museListChangedCallback := none
    g_connectionStateChangedCallback := none
    g_dataReceivedCallback := none
    g_currentMuse := none
    g_listener := false
    g_connectionListener := false
    g_dataListener := false }

/-- `GetMuseManager`, parameterised by what `MuseManagerWindows::get_instance()`
returns (`none` models a null or throwing instance acquisition).  Returns
whether the result handle is non-null, and the new state. -/
def GetMuseManager (inst : Option (List Device)) (s : BridgeState) :
    Bool × BridgeState :=
  if s.g_manager.isSome then (true, s)
  else
    match inst with
    | none => (false, s)
    | some devs =>
        (true, { s with g_manager := some devs, g_listener := true })

/-- `StartListening`: fails when the manager is null, otherwise issues the
SDK `start_listening` call. -/
def StartListening (s : BridgeState) : Bool × List SdkCall :=
  match s.g_manager with
  | none => (false, [])
  | some _ => (true, [SdkCall.startListening])

/-- `StopListening`: issues `stop_listening` only when the manager exists. -/
def StopListening (s : BridgeState) : List SdkCall :=
  match s.g_manager with
  | none => []
  | some _ => [SdkCall.stopListening]

/-- `GetMuseCount`: 0 when the manager is null, else the snapshot size. -/
def GetMuseCount (s : BridgeState) : Int :=
  match s.g_manager with
  | none => 0
  | some muses => (muses.length : Int)

/-- `GetMuseName(int index)`: empty string when the manager is null or the
index fails the `index < 0 || index >= muses.size()` guard, else the indexed
device's name. -/
def GetMuseName (s : BridgeState) (index : Int) : String :=
  match s.g_manager with
  | none => ""
  | some muses =>
      if index < 0 ∨ (muses.length : Int) ≤ index then ""
      else
        match muses.get? index.toNat with
        | some d => d.name
        | none => ""

/-- The body of `ConnectToMuse` once the scan has matched a device: disconnect
any previous muse (a throwing `disconnect()` unwinds to the function's catch,
which logs and returns `false` with no further effect), ensure both listener
instances exist, register the connection listener on the device, install it as
`g_currentMuse` and start the asynchronous connect. -/
def connectToMatch (env : SdkEnv) (s : BridgeState) (muse : Device) :
    Bool × BridgeState × List SdkCall :=
  match s.g_currentMuse with
  | some old =>
      if env.disconnectThrows old.id then
        (false, s, [SdkCall.disconnect old.id])
      else
        (true,
         { s with g_connectionListener := true, g_dataListener := true,
                  g_currentMuse := some muse },
         [SdkCall.disconnect old.id,
          SdkCall.registerConnectionListener muse.id,
          SdkCall.runAsynchronously muse.id])
  | none =>
      (true,
       { s with g_connectionListener := true, g_dataListener := true,
                g_currentMuse := some muse },
       [SdkCall.registerConnectionListener muse.id,
        SdkCall.runAsynchronously muse.id])

/-- The `for (auto muse : muses)` scan of `ConnectToMuse`: first device whose
`get_name()` equals `name` wins; no match falls through to `return false`. -/
def connectScan (env : SdkEnv) (s : BridgeState) (name : String) :
    List Device → Bool × BridgeState × List SdkCall
  | [] => (false, s, [])
  | muse :: rest =>
      if muse.name = name then connectToMatch env s muse
      else connectScan env s name rest

/-- `ConnectToMuse(const char* name)`. -/
def ConnectToMuse (env : SdkEnv) (s : BridgeState) (name : String) :
    Bool × BridgeState × List SdkCall :=
  match s.g_manager with
  | none => (false, s, [])
  | some muses => connectScan env s name muses

/-- `DisconnectMuse`: disconnects and clears `g_currentMuse` when set.  When
`disconnect()` throws, the catch swallows the error before the null
assignment, so `g_currentMuse` stays set. -/
def DisconnectMuse (env : SdkEnv) (s : BridgeState) :
    BridgeState × List SdkCall :=
  match s.g_currentMuse with
  | none => (s, [])
  | some d =>
      if env.disconnectThrows d.id then (s, [SdkCall.disconnect d.id])
      else ({ s with g_currentMuse := none }, [SdkCall.disconnect d.id])

/-- `RegisterDataListener(int packetType)`: fails when `g_currentMuse` or
`g_dataListener` is null, else registers the data listener on the current
muse for that packet type. -/
def RegisterDataListener (s : BridgeState) (packetType : Int) :
    Bool × List SdkCall :=
  match s.g_currentMuse with
  | none => (false, [])
  | some d =>
      if s.g_dataListener then
        (true, [SdkCall.registerDataListener d.id packetType])
      else (false, [])

/-- `UnregisterDataListener(int packetType)`. -/
def UnregisterDataListener (s : BridgeState) (packetType : Int) :
    Bool × List SdkCall :=
  match s.g_currentMuse with
  | none => (false, [])
  | some d =>
      if s.g_dataListener then
        (true, [SdkCall.unregisterDataListener d.id packetType])
      else (false, [])

/-- `SetMuseListChangedCallback`. -/
def SetMuseListChangedCallback (callback : Option Nat) (s : BridgeState) :
    BridgeState :=
  { s with g_museListChangedCallback := callback }

/-- `SetConnectionStateChangedCallback`. -/
def SetConnectionStateChangedCallback (callback : Option Nat)
    (s : BridgeState) : BridgeState :=
  { s with g_connectionStateChangedCallback := callback }

/-- `SetDataReceivedCallback`. -/
def SetDataReceivedCallback (callback : Option Nat) (s : BridgeState) :
    BridgeState :=
  { s with g_dataReceivedCallback := callback }

/-- The tail of `StopMuseManager` after the disconnect step: stop listening
when the manager exists, then null every callback, listener and the manager
itself. -/
def stopRest (s : BridgeState) (tr : List SdkCall) :
    BridgeState × List SdkCall :=
  ({ g_manager := none
     g_museListChangedCallback := none
     g_connectionStateChangedCallback := none
     g_dataReceivedCallback := none
     g_currentMuse := s.g_currentMuse
     g_listener := false
     g_connectionListener := false
     g_dataListener := false },
   tr ++ (match s.g_manager with
          | none => []
          | some _ => [SdkCall.stopListening]))

/-- `StopMuseManager`: disconnect the current muse if any, stop listening,
clear callbacks, listeners and the manager.  A throwing `disconnect()`
unwinds straight to the catch-all, so none of the later cleanup runs. -/
def StopMuseManager (env : SdkEnv) (s : BridgeState) :
    BridgeState × List SdkCall :=
  match s.g_currentMuse with
  | some d =>
      if env.disconnectThrows d.id then (s, [SdkCall.disconnect d.id])
      else stopRest { s with g_currentMuse := none } [SdkCall.disconnect d.id]
  | none => stopRest s []

/-- The session invariant behind `RegisterDataListener`'s guard: whenever an
active connection is present, both listener-adapter instances exist. -/
def ListenersPresent (s : BridgeState) : Prop :=
  s.g_currentMuse.isSome → (s.g_connectionListener = true ∧ s.g_dataListener = true)

instance (s : BridgeState) : Decidable (ListenersPresent s) := by
  unfold ListenersPresent
  infer_instance

/-- An EEG packet carrying the spec's test vector [1,2,3,4,5,6]. -/
def eegTestPacket : MuseDataPacket :=
  { packet_type := .EEG
    get_accelerometer_value := fun _ => 0
    get_battery_value := fun _ => 0
    get_eeg_channel_value := fun c =>
      match c with
      | .EEG1 => 1
      | .EEG2 => 2
      | .EEG3 => 3
      | .EEG4 => 4
      | .AUX_LEFT => 5
      | .AUX_RIGHT => 6 }

/-- Claim C1: for every data event the marshaler produces a 6-slot buffer
exactly matching the documented layout for its tag — ACCELEROMETER writes
[x, y, z] to positions 0-2, BATTERY writes [charge_percent, millivolts,
temperature_celsius] to positions 0-2, EEG writes its six channel values to
positions 0-5, ARTIFACTS writes the three boolean flags as 1.0/0.0 to
positions 0-2 — with every unused slot 0.0, and every event of an
unrecognized kind marshals to an all-zero buffer with its native tag passed
through unchanged (the tag of the invocation is always the `(int)` cast of
the packet's native kind, second conjunct). -/
theorem marshal_buffer_layout (cb : Nat) (p : MuseDataPacket)
    (a : MuseArtifactPacket) :
    (dataBufferFor p).length = 6 ∧
    receive_muse_data_packet (some cb) p =
      some ⟨p.packet_type.toTag, dataBufferFor p, 6⟩ ∧
    (p.packet_type = .ACCELEROMETER →
      dataBufferFor p =
        [p.get_accelerometer_value .X, p.get_accelerometer_value .Y,
         p.get_accelerometer_value .Z, 0, 0, 0]) ∧
    (p.packet_type = .BATTERY →
      dataBufferFor p =
        [p.get_battery_value .CHARGE_PERCENTAGE_REMAINING,
         p.get_battery_value .MILLIVOLTS,
         p.get_battery_value .TEMPERATURE_CELSIUS, 0, 0, 0]) ∧
    (p.packet_type = .EEG →
      dataBufferFor p =
        [p.get_eeg_channel_value .EEG1, p.get_eeg_channel_value .EEG2,
         p.get_eeg_channel_value .EEG3, p.get_eeg_channel_value .EEG4,
         p.get_eeg_channel_value .AUX_LEFT,
         p.get_eeg_channel_value .AUX_RIGHT]) ∧
    (p.packet_type ≠ .ACCELEROMETER → p.packet_type ≠ .BATTERY →
      p.packet_type ≠ .EEG → dataBufferFor p = [0, 0, 0, 0, 0, 0]) ∧
    receive_muse_artifact_packet (some cb) a =
      some ⟨MuseDataPacketType.ARTIFACTS.toTag,
        [if a.headband_on then 1 else 0,
         if a.blink then 1 else 0,
         if a.jaw_clench then 1 else 0, 0, 0, 0], 6⟩ := by
  obtain ⟨pt, ga, gb, ge⟩ := p
  refine ⟨?_, rfl, ?_, ?_, ?_, ?_, rfl⟩
  · cases pt <;> rfl
  · intro h
    cases h
    rfl
  · intro h
    cases h
    rfl
  · intro h
    cases h
    rfl
  · intro h1 h2 h3
    cases pt <;> simp_all <;> rfl

/-- Witness for C1 at concrete inputs: the spec's own EEG test vector, via the
EEG conjunct of `marshal_buffer_layout`. -/
theorem marshal_buffer_layout_witness :
    dataBufferFor eegTestPacket = [1, 2, 3, 4, 5, 6] := by
  have h := (marshal_buffer_layout 0 eegTestPacket ⟨true, false, true⟩).2.2.2.2.1
  exact h rfl

/-- The scan of `ConnectToMuse` is the first-match search: it proceeds with
the first device whose name equals `name`, and falls through when none
matches. -/
theorem connectScan_eq_find (env : SdkEnv) (s : BridgeState) (name : String)
    (l : List Device) :
    connectScan env s name l =
      match l.find? (fun d => d.name == name) with
      | none => (false, s, [])
      | some d => connectToMatch env s d := by
  induction l with
  | nil => rfl
  | cons muse rest ih =>
      by_cases h : muse.name = name
      · rw [List.find?_cons_of_pos _ (by simp [h])]
        simp [connectScan, h]
      · rw [List.find?_cons_of_neg _ (by simp [h])]
        simp [connectScan, h, ih]

/-- Demo devices and states used by the concrete witnesses and
counterexamples below. -/
def demoDevA : Device := ⟨0, "MuseA"⟩

/-- Second demo device. -/
def demoDevB : Device := ⟨1, "MuseB"⟩

/-- An environment in which device 0's `disconnect()` throws. -/
def throwA : SdkEnv := ⟨fun i => i == 0⟩

/-- A Ready state: manager initialised with two discovered devices, nothing
connected. -/
def demoReadyState : BridgeState :=
  { initialState with
    g_manager := some [demoDevA, demoDevB]
    g_listener := true }

/-- A Ready state with one discovered device. -/
def c2State : BridgeState :=
  { initialState with
    g_manager := some [demoDevA]
    g_listener := true }

/-- A Connected state: connected to device A while device B is discoverable. -/
def c3State : BridgeState :=
  { initialState with
    g_manager := some [demoDevB]
    g_currentMuse := some demoDevA
    g_listener := true
    g_connectionListener := true
    g_dataListener := true }

/-- Claim C6: for every data or artifact event delivered while the data
callback slot is unset, the data adapter performs no marshaling and makes no
callback invocation (it returns before the buffer is built); an invocation
is produced exactly when a data callback is registered. -/
theorem adapter_skips_when_callback_unset (cb : Option Nat)
    (p : MuseDataPacket) (a : MuseArtifactPacket) :
    receive_muse_data_packet none p = none ∧
    receive_muse_artifact_packet none a = none ∧
    (receive_muse_data_packet cb p).isSome = cb.isSome ∧
    (receive_muse_artifact_packet cb a).isSome = cb.isSome := by
  refine ⟨rfl, rfl, ?_, ?_⟩ <;>
    cases cb <;> rfl

/-- Claim C9: `GetMuseName` is total and returns the empty string whenever the
index is negative, at least `GetMuseCount`, or the session is uninitialised;
in particular at -1 and at `GetMuseCount` itself. -/
theorem GetMuseName_out_of_range (s : BridgeState) (index : Int) :
    (s.g_manager = none → GetMuseName s index = "") ∧
    (index < 0 → GetMuseName s index = "") ∧
    (GetMuseCount s ≤ index → GetMuseName s index = "") ∧
    GetMuseName s (-1) = "" ∧
    GetMuseName s (GetMuseCount s) = "" := by
  unfold GetMuseName GetMuseCount
  cases h : s.g_manager with
  | none => simp
  | some muses =>
      refine ⟨by simp, ?_, ?_, ?_, ?_⟩
      · intro hneg
        simp [hneg]
      · intro hge
        simp only at hge
        simp [hge]
      · simp
      · simp

/-- Witness for C9: index 2 is `GetMuseCount` of the two-device demo state, so
the name is empty. -/
theorem GetMuseName_out_of_range_witness :
    GetMuseName demoReadyState 2 = "" := by
  have h := (GetMuseName_out_of_range demoReadyState 2).2.2.1
  exact h (by decide)

/-- Claim C5: `ConnectToMuse` scans the current device snapshot linearly and
proceeds with the first exact name match; with no manager or no matching
name it returns false with the session state unchanged and no SDK call made
(so the active connection, subscribed tags and callback slots are all
untouched). -/
theorem connect_uses_first_match (env : SdkEnv) (s : BridgeState)
    (name : String) (muses : List Device) (d : Device) :
    (s.g_manager = none → ConnectToMuse env s name = (false, s, [])) ∧
    (s.g_manager = some muses →
      muses.find? (fun x => x.name == name) = none →
      ConnectToMuse env s name = (false, s, [])) ∧
    (s.g_manager = some muses →
      muses.find? (fun x => x.name == name) = some d →
      ConnectToMuse env s name = connectToMatch env s d ∧
      ((ConnectToMuse env s name).1 = true →
        (ConnectToMuse env s name).2.1.g_currentMuse = some d)) := by
  refine ⟨?_, ?_, ?_⟩
  · intro hm
    simp [ConnectToMuse, hm]
  · intro hm hf
    simp [ConnectToMuse, hm, connectScan_eq_find, hf]
  · intro hm hf
    have he : ConnectToMuse env s name = connectToMatch env s d := by
      simp [ConnectToMuse, hm, connectScan_eq_find, hf]
    refine ⟨he, ?_⟩
    rw [he]
    unfold connectToMatch
    cases hc : s.g_currentMuse with
    | none => intro _; rfl
    | some old =>
        by_cases ht : env.disconnectThrows old.id
        · simp [ht]
        · simp [ht]

/-- Witness for C5 at concrete inputs: in the two-device demo state the scan
matches the second device. -/
theorem connect_uses_first_match_witness :
    (ConnectToMuse okEnv demoReadyState "MuseB").2.1.g_currentMuse =
      some demoDevB := by
  have h := ((connect_uses_first_match okEnv demoReadyState "MuseB"
      [demoDevA, demoDevB] demoDevB).2.2 rfl (by decide)).2
  exact h (by decide)

/-- Claim C2 counterexample: a successful `ConnectToMuse` makes no
`register_data_listener` SDK call at all — the data-listener adapter is not
attached to the matched device before the call returns true, refuting the
claim that both adapters are attached. -/
theorem connect_makes_no_data_listener_call :
    (ConnectToMuse okEnv c2State "MuseA").1 = true ∧
    ((ConnectToMuse okEnv c2State "MuseA").2.2.all
      (fun c => ! SdkCall.isRegisterDataListener c)) = true := by
  decide

/-- Claim C2 amended: for every successful `ConnectToMuse(name)` call, the
connection-listener adapter is attached to the matched device and both
adapter instances exist before the call returns true; the data-listener
adapter is not attached by connect (no `register_data_listener` call occurs)
— it is attached only later by `RegisterDataListener`. -/
theorem connect_attaches_connection_listener_only (env : SdkEnv)
    (s : BridgeState) (name : String) (muses : List Device) (d : Device)
    (hm : s.g_manager = some muses)
    (hd : muses.find? (fun x => x.name == name) = some d)
    (h : (ConnectToMuse env s name).1 = true) :
    (ConnectToMuse env s name).2.1.g_currentMuse = some d ∧
    d.name = name ∧
    SdkCall.registerConnectionListener d.id ∈ (ConnectToMuse env s name).2.2 ∧
    (ConnectToMuse env s name).2.1.g_connectionListener = true ∧
    (ConnectToMuse env s name).2.1.g_dataListener = true ∧
    ((ConnectToMuse env s name).2.2.all
      (fun c => ! SdkCall.isRegisterDataListener c)) = true := by
  have hname : d.name = name := by
    have := List.find?_some hd
    simpa using this
  have he : ConnectToMuse env s name = connectToMatch env s d := by
    simp [ConnectToMuse, hm, connectScan_eq_find, hd]
  rw [he] at h ⊢
  unfold connectToMatch at h ⊢
  cases hc : s.g_currentMuse with
  | none => exact ⟨rfl, hname, by simp, rfl, rfl, rfl⟩
  | some old =>
      rw [hc] at h
      by_cases ht : env.disconnectThrows old.id = true
      · simp [ht] at h
      · have ht2 : env.disconnectThrows old.id = false := by
          simpa using ht
        simp [ht2, hname, SdkCall.isRegisterDataListener]

/-- Witness for the amended C2 at concrete inputs. -/
theorem connect_attaches_connection_listener_only_witness :
    (ConnectToMuse okEnv c2State "MuseA").2.1.g_connectionListener = true ∧
    (ConnectToMuse okEnv c2State "MuseA").2.1.g_dataListener = true := by
  have h := connect_attaches_connection_listener_only okEnv c2State "MuseA"
    [demoDevA] demoDevA rfl (by decide) (by decide)
  exact ⟨h.2.2.2.1, h.2.2.2.2.1⟩

/-- Claim C3 counterexample: with device A connected and A's `disconnect()`
throwing, a connect to discoverable device B returns false with the session
state unchanged — the disconnect failure is fatal to the new connection,
refuting the claim that connect still returns true. -/
theorem connect_disconnect_failure_is_fatal :
    (ConnectToMuse throwA c3State "MuseB").1 = false ∧
    (ConnectToMuse throwA c3State "MuseB").2.1 = c3State ∧
    (ConnectToMuse throwA c3State "MuseB").2.2 = [SdkCall.disconnect 0] := by
  decide

/-- Claim C3 amended: when `ConnectToMuse(name)` matches a device while an
active connection exists, the old connection's `disconnect()` is invoked
first; if that disconnect throws, the exception is caught by the entry
point's catch, the new device is never attached and connect returns false
with the session state unchanged; only when the disconnect succeeds does
connect attach and dispatch the new connection and return true. -/
theorem connect_disconnect_failure_aborts (env : SdkEnv) (s : BridgeState)
    (name : String) (muses : List Device) (old d : Device)
    (hm : s.g_manager = some muses)
    (hold : s.g_currentMuse = some old)
    (hd : muses.find? (fun x => x.name == name) = some d) :
    (ConnectToMuse env s name).2.2.head? = some (SdkCall.disconnect old.id) ∧
    (env.disconnectThrows old.id = true →
      ConnectToMuse env s name = (false, s, [SdkCall.disconnect old.id])) ∧
    (env.disconnectThrows old.id = false →
      ConnectToMuse env s name =
        (true,
         { s with g_connectionListener := true, g_dataListener := true,
                  g_currentMuse := some d },
         [SdkCall.disconnect old.id,
          SdkCall.registerConnectionListener d.id,
          SdkCall.runAsynchronously d.id])) := by
  have he : ConnectToMuse env s name = connectToMatch env s d := by
    simp [ConnectToMuse, hm, connectScan_eq_find, hd]
  rw [he]
  unfold connectToMatch
  rw [hold]
  by_cases ht : env.disconnectThrows old.id <;> simp [ht]

/-- Witness for the amended C3 at concrete inputs: with a succeeding
disconnect, connect to B returns true, installs B and traces disconnect(A)
first. -/
theorem connect_disconnect_failure_aborts_witness :
    ConnectToMuse okEnv c3State "MuseB" =
      (true,
       { c3State with g_connectionListener := true, g_dataListener := true,
                      g_currentMuse := some demoDevB },
       [SdkCall.disconnect 0, SdkCall.registerConnectionListener 1,
        SdkCall.runAsynchronously 1]) := by
  have h := (connect_disconnect_failure_aborts okEnv c3State "MuseB"
      [demoDevB] demoDevA demoDevB rfl rfl (by decide)).2.2
  exact h rfl

/-- Claim C4 counterexample: with device A active and A's `disconnect()`
throwing, connecting to device B leaves A — not B — as the active
connection, refuting "always results in exactly one ActiveConnection (B)". -/
theorem connect_to_b_can_leave_a_active :
    (ConnectToMuse throwA c3State "MuseB").2.1.g_currentMuse = some demoDevA ∧
    demoDevA ≠ demoDevB := by
  decide

/-- Demo devices for the C4 witness, distinct from the C3 witness inputs. -/
def devP : Device := ⟨5, "MuseP"⟩

/-- Second demo device for the C4 witness. -/
def devQ : Device := ⟨7, "MuseQ"⟩

/-- A Connected state used by the C4 witness: connected to `devP` with `devQ`
discoverable. -/
def c4State : BridgeState :=
  { initialState with
    g_manager := some [devP, devQ]
    g_currentMuse := some devP
    g_listener := true
    g_connectionListener := true
    g_dataListener := true }

/-- Claim C4 amended: at most one ActiveConnection ever exists (the bridge
holds a single `g_currentMuse` slot).  When device A is the ActiveConnection
and `ConnectToMuse` matches device B, A's `disconnect()` is invoked before
B's listener attachment and asynchronous connect (first trace position); if
that disconnect succeeds, exactly one ActiveConnection — B — exists
afterwards; if it throws, connect returns false and A remains the unique
ActiveConnection. -/
theorem single_active_connection (env : SdkEnv) (s : BridgeState)
    (name : String) (muses : List Device) (A B : Device)
    (hm : s.g_manager = some muses)
    (hA : s.g_currentMuse = some A)
    (hB : muses.find? (fun x => x.name == name) = some B) :
    (env.disconnectThrows A.id = false →
      ConnectToMuse env s name =
        (true,
         { s with g_connectionListener := true, g_dataListener := true,
                  g_currentMuse := some B },
         [SdkCall.disconnect A.id,
          SdkCall.registerConnectionListener B.id,
          SdkCall.runAsynchronously B.id])) ∧
    (env.disconnectThrows A.id = true →
      (ConnectToMuse env s name).1 = false ∧
      (ConnectToMuse env s name).2.1.g_currentMuse = some A) := by
  have he : ConnectToMuse env s name = connectToMatch env s B := by
    simp [ConnectToMuse, hm, connectScan_eq_find, hB]
  rw [he]
  unfold connectToMatch
  rw [hA]
  constructor
  · intro hok
    simp [hok]
  · intro ht
    simp [ht, hA]

/-- Witness for the amended C4 at concrete inputs: connecting to Q while P is
active disconnects P first and leaves Q as the only active connection. -/
theorem single_active_connection_witness :
    ConnectToMuse okEnv c4State "MuseQ" =
      (true,
       { c4State with g_connectionListener := true, g_dataListener := true,
                      g_currentMuse := some devQ },
       [SdkCall.disconnect 5, SdkCall.registerConnectionListener 7,
        SdkCall.runAsynchronously 7]) := by
  have h := (single_active_connection okEnv c4State "MuseQ" [devP, devQ]
      devP devQ rfl rfl (by decide)).1
  exact h rfl

/-- A fully-populated Connected state used by the C7 theorems: manager
initialised, all three callbacks set, connected to device A with device B
discoverable. -/
def c7State : BridgeState :=
  { g_manager := some [demoDevB]
    g_museListChangedCallback := some 10
    g_connectionStateChangedCallback := some 11
    g_dataReceivedCallback := some 12
    g_currentMuse := some demoDevA
    g_listener := true
    g_connectionListener := true
    g_dataListener := true }

/-- Claim C7 counterexample: `StopMuseManager` called in a Connected state
whose device's `disconnect()` throws performs none of the cleanup — the
manager handle and all three callback slots survive — refuting the claim
that shutdown from any state releases the manager and clears the slots. -/
theorem shutdown_aborted_by_disconnect_throw :
    (StopMuseManager throwA c7State).1 = c7State ∧
    (StopMuseManager throwA c7State).1.g_manager ≠ none ∧
    (StopMuseManager throwA c7State).1.g_dataReceivedCallback ≠ none := by
  decide

/-- Claim C7 amended: whenever the ActiveConnection's `disconnect()` does not
throw, `StopMuseManager` disconnects any ActiveConnection, stops discovery,
clears all three callback slots and the listener instances, and releases the
manager handle, returning the session to the uninitialised state; it is
idempotent and safe when already uninitialised, and afterwards every
operation behaves as if never initialised (`GetMuseCount` is 0,
`ConnectToMuse` fails with no effect, callbacks are cleared).  If the
disconnect throws, the exception is caught and all remaining cleanup is
skipped, leaving the session state unchanged. -/
theorem shutdown_cleanup (env : SdkEnv) (s : BridgeState) :
    ((∀ d, s.g_currentMuse = some d → env.disconnectThrows d.id = false) →
      (StopMuseManager env s).1 = initialState ∧
      StopMuseManager env (StopMuseManager env s).1 = (initialState, []) ∧
      GetMuseCount (StopMuseManager env s).1 = 0 ∧
      (∀ name, ConnectToMuse env (StopMuseManager env s).1 name =
        (false, initialState, [])) ∧
      (∀ d, s.g_currentMuse = some d →
        SdkCall.disconnect d.id ∈ (StopMuseManager env s).2) ∧
      (s.g_manager.isSome = true →
        SdkCall.stopListening ∈ (StopMuseManager env s).2)) ∧
    StopMuseManager env initialState = (initialState, []) ∧
    (∀ d, s.g_currentMuse = some d → env.disconnectThrows d.id = true →
      StopMuseManager env s = (s, [SdkCall.disconnect d.id])) := by
  refine ⟨?_, rfl, ?_⟩
  · intro h
    have h1 : (StopMuseManager env s).1 = initialState := by
      unfold StopMuseManager
      cases hc : s.g_currentMuse with
      | none =>
          unfold stopRest initialState
          simp [hc]
      | some d =>
          have ht := h d hc
          unfold stopRest initialState
          simp [ht]
    refine ⟨h1, ?_, ?_, ?_, ?_, ?_⟩
    · rw [h1]
      rfl
    · rw [h1]
      rfl
    · intro name
      rw [h1]
      rfl
    · intro d hc
      unfold StopMuseManager
      simp [hc, h d hc, stopRest]
    · intro hm
      unfold StopMuseManager
      cases hc : s.g_currentMuse with
      | none =>
          unfold stopRest
          cases hmg : s.g_manager with
          | none => rw [hmg] at hm; simp at hm
          | some muses => simp
      | some d =>
          have ht := h d hc
          unfold stopRest
          cases hmg : s.g_manager with
          | none => rw [hmg] at hm; simp at hm
          | some muses => simp [ht, hmg]
  · intro d hc ht
    unfold StopMuseManager
    simp [hc, ht]

/-- Witness for the amended C7 at concrete inputs: the no-throw branch cleans
up fully from the Connected demo state, and the throw branch leaves that same
state untouched after the one disconnect call. -/
theorem shutdown_cleanup_witness :
    (StopMuseManager okEnv c7State).1 = initialState ∧
    GetMuseCount (StopMuseManager okEnv c7State).1 = 0 ∧
    StopMuseManager throwA c7State = (c7State, [SdkCall.disconnect 0]) := by
  have h1 := (shutdown_cleanup okEnv c7State).1 (fun _ _ => rfl)
  have h2 := (shutdown_cleanup throwA c7State).2.2 demoDevA rfl rfl
  exact ⟨h1.1, h1.2.2.1, h2⟩

/-- A Connected state used by the C8 theorems. -/
def c8State : BridgeState :=
  { initialState with
    g_manager := some [demoDevA]
    g_currentMuse := some demoDevA
    g_listener := true
    g_connectionListener := true
    g_dataListener := true }

/-- Claim C8 counterexample: when the active device's `disconnect()` throws,
`DisconnectMuse` catches the error before nulling `g_currentMuse`, so the
ActiveConnection is not torn down — refuting the claim that an existing
ActiveConnection is always torn down. -/
theorem disconnect_throw_keeps_active_connection :
    (DisconnectMuse throwA c8State).1.g_currentMuse = some demoDevA ∧
    (DisconnectMuse throwA c8State).1.g_currentMuse ≠ none := by
  decide

/-- Claim C8 amended: when an ActiveConnection exists and its `disconnect()`
does not throw, `DisconnectMuse` invokes the SDK disconnect on that device
(which severs delivery to its registered listeners) and clears
`g_currentMuse`, leaving every other part of the session — manager handle,
discovery, callback slots, listener instances — unchanged (no other SDK call
is made); if the disconnect throws, the error is caught and the
ActiveConnection reference remains; with no ActiveConnection it is an
idempotent, harmless no-op that reports no error. -/
theorem disconnect_teardown (env : SdkEnv) (s : BridgeState) (d : Device) :
    (s.g_currentMuse = none → DisconnectMuse env s = (s, [])) ∧
    (s.g_currentMuse = some d → env.disconnectThrows d.id = false →
      DisconnectMuse env s =
        ({ s with g_currentMuse := none }, [SdkCall.disconnect d.id])) ∧
    (s.g_currentMuse = some d → env.disconnectThrows d.id = true →
      DisconnectMuse env s = (s, [SdkCall.disconnect d.id])) ∧
    DisconnectMuse env { s with g_currentMuse := none } =
      ({ s with g_currentMuse := none }, []) := by
  refine ⟨?_, ?_, ?_, rfl⟩
  · intro hc
    unfold DisconnectMuse
    simp [hc]
  · intro hc hok
    unfold DisconnectMuse
    simp [hc, hok]
  · intro hc ht
    unfold DisconnectMuse
    simp [hc, ht]

/-- Witness for the amended C8 at concrete inputs. -/
theorem disconnect_teardown_witness :
    DisconnectMuse okEnv c8State =
      ({ c8State with g_currentMuse := none }, [SdkCall.disconnect 0]) := by
  have h := (disconnect_teardown okEnv c8State demoDevA).2.1
  exact h rfl rfl

/-- Claim C10: every boundary operation preserves the invariant that whenever
an ActiveConnection is present both listener-adapter instances are present
(connect creates both before installing the connection; shutdown clears them
only together with the connection), so `RegisterDataListener` and
`UnregisterDataListener` can fail for want of a listener only when no
connection is active: under the invariant, a false return implies
`g_currentMuse` is null, and with a connection active they succeed. -/
theorem listeners_present_invariant (env : SdkEnv)
    (inst : Option (List Device)) (s : BridgeState) (name : String)
    (tag : Int) (cb : Option Nat) (h : ListenersPresent s) :
    ListenersPresent initialState ∧
    ListenersPresent (GetMuseManager inst s).2 ∧
    ListenersPresent (ConnectToMuse env s name).2.1 ∧
    ListenersPresent (DisconnectMuse env s).1 ∧
    ListenersPresent (StopMuseManager env s).1 ∧
    ListenersPresent (SetMuseListChangedCallback cb s) ∧
    ListenersPresent (SetConnectionStateChangedCallback cb s) ∧
    ListenersPresent (SetDataReceivedCallback cb s) ∧
    ((RegisterDataListener s tag).1 = false → s.g_currentMuse = none) ∧
    ((UnregisterDataListener s tag).1 = false → s.g_currentMuse = none) ∧
    (s.g_currentMuse.isSome = true →
      (RegisterDataListener s tag).1 = true ∧
      (UnregisterDataListener s tag).1 = true) := by
  have hreg : (RegisterDataListener s tag).1 = false → s.g_currentMuse = none := by
    intro hf
    cases hc : s.g_currentMuse with
    | none => rfl
    | some d =>
        have hdl := (h (by simp [hc])).2
        rw [RegisterDataListener, hc, hdl] at hf
        simp at hf
  have hunreg : (UnregisterDataListener s tag).1 = false →
      s.g_currentMuse = none := by
    intro hf
    cases hc : s.g_currentMuse with
    | none => rfl
    | some d =>
        have hdl := (h (by simp [hc])).2
        rw [UnregisterDataListener, hc, hdl] at hf
        simp at hf
  refine ⟨?_, ?_, ?_, ?_, ?_, ?_, ?_, ?_, hreg, hunreg, ?_⟩
  · intro hx
    simp [initialState] at hx
  · unfold GetMuseManager
    by_cases hm : s.g_manager.isSome
    · simpa [hm] using h
    · cases inst with
      | none => simpa [hm] using h
      | some devs =>
          simp only [hm, Bool.false_eq_true, if_false]
          intro hx
          exact h hx
  · unfold ConnectToMuse
    cases hmg : s.g_manager with
    | none => exact h
    | some muses =>
        show ListenersPresent (connectScan env s name muses).2.1
        rw [connectScan_eq_find]
        cases hf : muses.find? (fun x => x.name == name) with
        | none => exact h
        | some d =>
            unfold connectToMatch
            cases hc : s.g_currentMuse with
            | none => intro _; exact ⟨rfl, rfl⟩
            | some old =>
                by_cases ht : env.disconnectThrows old.id = true
                · simpa [ht] using h
                · have ht2 : env.disconnectThrows old.id = false := by
                    simpa using ht
                  simp only [ht2, Bool.false_eq_true, if_false]
                  intro _
                  exact ⟨rfl, rfl⟩
  · unfold DisconnectMuse
    cases hc : s.g_currentMuse with
    | none => exact h
    | some d =>
        by_cases ht : env.disconnectThrows d.id = true
        · simpa [ht] using h
        · have ht2 : env.disconnectThrows d.id = false := by
            simpa using ht
          simp only [ht2, Bool.false_eq_true, if_false]
          intro hx
          simp at hx
  · unfold StopMuseManager
    cases hc : s.g_currentMuse with
    | none =>
        unfold stopRest
        intro hx
        simp [hc] at hx
    | some d =>
        by_cases ht : env.disconnectThrows d.id = true
        · simpa [ht] using h
        · have ht2 : env.disconnectThrows d.id = false := by
            simpa using ht
          simp only [ht2, Bool.false_eq_true, if_false]
          unfold stopRest
          intro hx
          simp at hx
  · exact h
  · exact h
  · exact h
  · intro hc
    cases hcm : s.g_currentMuse with
    | none => rw [hcm] at hc; simp at hc
    | some d =>
        have hdl := (h (by simp [hcm])).2
        constructor
        · rw [RegisterDataListener, hcm, hdl]
          rfl
        · rw [UnregisterDataListener, hcm, hdl]
          rfl

/-- Witness for C10 at concrete inputs: in the Connected demo state the
invariant holds and data-interest registration succeeds. -/
theorem listeners_present_invariant_witness :
    c4State.g_currentMuse ≠ none ∧
    (RegisterDataListener c4State 2).1 = true ∧
    (UnregisterDataListener c4State 2).1 = true := by
  have h := (listeners_present_invariant okEnv none c4State "MuseP" 2 none
      (by decide)).2.2.2.2.2.2.2.2.2.2
  exact ⟨by decide, h (by decide)⟩

end MuseWrapper
